import Mathlib

/-!
Verification of the dbpulse database-health monitor.

This file is a shallow embedding of the pure decision logic of the
monitor: the supervision loop's per-iteration metric updates
(`src/pulse.rs`), the TLS certificate cache (`src/tls/cache.rs`), the
TLS mode parser (`src/tls/config.rs`), the certificate-expiry
computation (`src/tls/probe.rs`, `src/queries/mysql.rs`) and the
transaction-rollback id computation (`src/queries/postgres.rs`,
`src/queries/mysql.rs`).

Modelling conventions:
  - Rust `&str`/`String` values are Lean `String`s; Rust's
    `str::contains` (substring search) is `strContains` below.
  - Rust machine integers are `Int`/`Nat` with explicit wrapping or
    range checks where overflow or casts matter (`wrap32`,
    `i32_try_from`).
  - `chrono::TimeDelta` (a.k.a. `Duration`) values are modelled as
    their total signed length in nanoseconds (`Int`); the library's
    documented range bound of plus-or-minus i64::MAX milliseconds is
    `timeDeltaInRange`.  `std::time::Instant` values are `Nat`
    nanosecond readings of a monotone clock.
  - Prometheus metric families are modelled as total functions from
    the label tuple to the metric value; `with_label_values(..).inc()`
    and `.set(v)` are the pointwise updates `bumpN` and `setI`.  The
    two "info-style" gauge families whose label values rotate
    (`database_version_info`, `database_host_info`) are modelled as
    the list of label tuples currently present (every present series
    has value 1), so that `remove_label_values` is list removal.
  - I/O (SQL traffic, eprintln, sleeping, the panic machinery) is
    abstracted to the data it produces: one loop iteration is driven
    by a `ProbeOutcome` (the `Result` returned by the driver's
    `test_rw`), and a recovered panic is the separate handler
    `panicRecovery` (a panicking probe never reaches the metric arms
    of the `match`).
-/

/-- Boolean test that `p` is a leading segment of `l` (character-wise). -/
def startsWithSeq : List Char → List Char → Bool
  | [], _ => true
  | _ :: _, [] => false
  | a :: as, b :: bs => a == b && startsWithSeq as bs

/-- Boolean substring search on character lists: does `needle` occur
contiguously inside `hay`? -/
def hasSubSeq : List Char → List Char → Bool
  | [], needle => needle.isEmpty
  | h :: t, needle => startsWithSeq needle (h :: t) || hasSubSeq t needle

/-- Rust `hay.contains(needle)`: case-sensitive substring test. -/
def strContains (hay needle : String) : Bool :=
  hasSubSeq hay.data needle.data

/-- Rust `s.to_lowercase()` restricted to ASCII case mapping (all the
strings the monitor compares are ASCII). -/
def to_lowercase (s : String) : String :=
  String.mk (s.data.map Char.toLower)

/-- `is_database_read_only` from `src/pulse.rs` lines 146-155: decide
read-only posture from the (possibly annotated) version string, with a
postgres-specific extra check for recovery mode. -/
def is_database_read_only (db : String) (version : String) : Bool :=
  match db with
  | "postgres" | "postgresql" =>
      strContains version "recovery mode" || strContains version "read-only"
  | _ => strContains version "read-only"

/-- `is_tls_error` from `src/pulse.rs` lines 133-144, applied to the
formatted error string. -/
def is_tls_error (error_str : String) : Bool :=
  strContains error_str "ssl"
    || strContains error_str "SSL"
    || strContains error_str "tls"
    || strContains error_str "TLS"
    || strContains error_str "certificate"
    || strContains error_str "Certificate"

/-- Error classification of the postgres error arm, `src/pulse.rs`
lines 313-328.  Note: no "Access denied" clause in this arm. -/
def classify_error_postgres (error_str : String) : String :=
  if strContains error_str "authentication" || strContains error_str "password" then
    "authentication"
  else if strContains error_str "timeout" then
    "timeout"
  else if strContains error_str "connection" || strContains error_str "refused" then
    "connection"
  else if strContains error_str "transaction" then
    "transaction"
  else
    "query"

/-- Error classification of the mysql error arm, `src/pulse.rs`
lines 422-438: same as the postgres arm plus the "Access denied"
clause in the authentication test. -/
def classify_error_mysql (error_str : String) : String :=
  if strContains error_str "authentication" || strContains error_str "password"
      || strContains error_str "Access denied" then
    "authentication"
  else if strContains error_str "timeout" then
    "timeout"
  else if strContains error_str "connection" || strContains error_str "refused" then
    "connection"
  else if strContains error_str "transaction" then
    "transaction"
  else
    "query"

/-- Classification rule exactly as the specification words it (section
4.5 step 5): one driver-independent substring scan whose
authentication class includes "Access denied". -/
def spec_classify_error (error_str : String) : String :=
  classify_error_mysql error_str

/-- The three version-string annotations of specification section 4.4
step 8, as the specification's words for "contains the annotations":
the read-only decision condition claimed by the spec. -/
def spec_contains_readonly_annot (version : String) : Bool :=
  strContains version " - Database is in recovery mode"
    || strContains version " - Transaction read-only mode enabled"
    || strContains version " - Database is in read-only mode"

/-- TLS/SSL mode from `src/tls/config.rs`. -/
inductive TlsMode where
  | Disable
  | Require
  | VerifyCA
  | VerifyFull
deriving DecidableEq, Repr

/-- `TlsMode::from_str` from `src/tls/config.rs` lines 29-37: lowercase
the input, then match the four canonical strings. -/
def TlsMode.from_str (s : String) : Except String TlsMode :=
  match to_lowercase s with
  | "disable" => Except.ok TlsMode.Disable
  | "require" => Except.ok TlsMode.Require
  | "verify-ca" => Except.ok TlsMode.VerifyCA
  | "verify-full" => Except.ok TlsMode.VerifyFull
  | _ => Except.error ("Invalid TLS mode: " ++ s)

/-- `TlsMode::is_enabled` from `src/tls/config.rs` lines 43-45. -/
def TlsMode.is_enabled : TlsMode → Bool
  | TlsMode.Disable => false
  | _ => true

/-- Modelled from the spec: the string rendering of a `TlsMode`.  The
source under `src/` has no Display implementation for `TlsMode`; the
specification's round-trip law (section 8) fixes the rendering as the
parser's canonical lowercase strings. -/
def TlsMode.render : TlsMode → String
  | TlsMode.Disable => "disable"
  | TlsMode.Require => "require"
  | TlsMode.VerifyCA => "verify-ca"
  | TlsMode.VerifyFull => "verify-full"

/-- `TlsMetadata` from `src/tls/metadata.rs`. -/
structure TlsMetadata where
  version : Option String
  cipher : Option String
  cert_subject : Option String
  cert_issuer : Option String
  cert_expiry_days : Option Int
deriving DecidableEq, Repr

/-- `CertCache` from `src/tls/cache.rs`: a TTL cache keyed by
"host:port".  The `HashMap` is a total function to an optional entry
(at most one entry per key, as in the source); instants and the TTL
are nanosecond readings of the monotone clock. -/
structure CertCache where
  data : String → Option (TlsMetadata × Nat)
  ttl : Nat

/-- `CertCache::get` from `src/tls/cache.rs` lines 31-40: return the
entry iff its age (`timestamp.elapsed()`, i.e. `now - timestamp` on
the monotone clock, saturating at zero) is strictly below the TTL. -/
def CertCache.get (c : CertCache) (key : String) (now : Nat) : Option TlsMetadata :=
  match c.data key with
  | some (metadata, timestamp) =>
      if now - timestamp < c.ttl then some metadata else none
  | none => none

/-- `CertCache::set` from `src/tls/cache.rs` lines 43-46: insert or
overwrite the entry for `key` with insertion instant `now`. -/
def CertCache.set (c : CertCache) (key : String) (metadata : TlsMetadata)
    (now : Nat) : CertCache :=
  { c with data := fun k => if k = key then some (metadata, now) else c.data k }

/-- The `chrono::TimeDelta` range bound, plus-or-minus i64::MAX milliseconds,
expressed in nanoseconds. -/
def timeDeltaMaxNanos : Int := 9223372036854775807 * 1000000

/-- A nanosecond count representable as a `chrono::TimeDelta`. -/
def timeDeltaInRange (d : Int) : Prop :=
  -timeDeltaMaxNanos ≤ d ∧ d ≤ timeDeltaMaxNanos

instance (d : Int) : Decidable (timeDeltaInRange d) := by
  unfold timeDeltaInRange; infer_instance

/-- `chrono::TimeDelta::checked_sub`: the difference, unless it leaves
the representable range. -/
def timeDeltaCheckedSub (a b : Int) : Option Int :=
  if timeDeltaInRange (a - b) then some (a - b) else none

/-- `chrono::TimeDelta::to_std`: convert to a `std::time::Duration`,
failing on negative values. -/
def timeDeltaToStd (d : Int) : Option Int :=
  if 0 ≤ d then some d else none

/-- `remaining_sleep_duration` from `src/pulse.rs` lines 194-200:
`wait_time.checked_sub(&runtime)`, converted to a std duration,
filtered to be non-zero.  Arguments and result are nanosecond
counts. -/
def remaining_sleep_duration (wait_time runtime : Int) : Option Int :=
  Option.filter (fun d => decide (d ≠ 0))
    ((timeDeltaCheckedSub wait_time runtime).bind timeDeltaToStd)

/-- `chrono::TimeDelta::num_seconds` on a delta of `nanos` nanoseconds:
whole seconds, rounding toward zero. -/
def chronoNumSeconds (nanos : Int) : Int :=
  Int.tdiv nanos 1000000000

/-- `chrono::TimeDelta::num_days`: `num_seconds() / 86_400` with Rust's
truncating division. -/
def chronoNumDays (nanos : Int) : Int :=
  Int.tdiv (chronoNumSeconds nanos) 86400

/-- `calculate_expiry_days` from `src/tls/probe.rs` lines 328-336:
`(not_after - Utc::now()).num_days()`.  Both instants are given as
(signed) nanoseconds since the unix epoch; certificate DER parsing is
abstracted to the `not_after` instant it produces. -/
def calculate_expiry_days (notAfterNanos nowNanos : Int) : Int :=
  chronoNumDays (notAfterNanos - nowNanos)

/-- The expiry-day computation of `parse_mysql_ssl_expiry` from
`src/queries/mysql.rs` lines 607-621: `(expiry - Utc::now()).num_days()`
on a successfully parsed `Ssl_server_not_after` value.  The date-string
parsing is abstracted to the instant it produces. -/
def parse_mysql_ssl_expiry_days (expiryNanos nowNanos : Int) : Int :=
  chronoNumDays (expiryNanos - nowNanos)

/-- Modelled from the spec (section 4.2 step 4):
`cert_expiry_days = floor((notAfter - now) / 24h)`. -/
def spec_cert_expiry_days (notAfterNanos nowNanos : Int) : Int :=
  Int.fdiv (notAfterNanos - nowNanos) 86400000000000

/-- Rust `i32::try_from` on an `i64` value: succeeds exactly on the
signed 32-bit range. -/
def i32_try_from (v : Int) : Option Int :=
  if -2147483648 ≤ v ∧ v ≤ 2147483647 then some v else none

/-- Rust `as i32` on an `i64` value: two's-complement wrap into the
signed 32-bit range. -/
def wrap32 (v : Int) : Int :=
  (v + 2147483648) % 4294967296 - 2147483648

/-- The rollback seed of `postgres_transaction_rollback_test`,
`src/queries/postgres.rs` line 422:
`now.timestamp_micros().rem_euclid(i64::from(i32::MAX))`
(Rust `rem_euclid` on a positive modulus is Euclidean `%`). -/
def postgres_rollback_seed (micros : Int) : Int :=
  micros % 2147483647

/-- The rollback test id of `postgres_transaction_rollback_test`,
`src/queries/postgres.rs` lines 422-424: the seed converted with
`i32::try_from` (an error aborts the iteration). -/
def postgres_rollback_test_id (micros : Int) : Option Int :=
  i32_try_from (postgres_rollback_seed micros)

/-- The rollback test id of the mysql `test_rw_with_table`,
`src/queries/mysql.rs` line 340:
`(now.timestamp_micros() % 2_147_483_647) as i32`
(Rust `%` truncates toward zero; the cast wraps). -/
def mysql_rollback_test_id (micros : Int) : Int :=
  wrap32 (Int.tmod micros 2147483647)

/-- Pointwise increment of a counter family at one label tuple
(`with_label_values(..).inc()`). -/
def bumpN {α : Type} [DecidableEq α] (f : α → Nat) (k : α) : α → Nat :=
  fun x => if x = k then f x + 1 else f x

/-- Pointwise set of an integer gauge family at one label tuple
(`with_label_values(..).set(v)`). -/
def setI {α : Type} [DecidableEq α] (f : α → Int) (k : α) (v : Int) : α → Int :=
  fun x => if x = k then v else f x

/-- Membership in an info-gauge family (a present series has value 1). -/
def gaugeHas (fam : List (String × String)) (lbl : String × String) : Bool :=
  fam.any (fun x => decide (x = lbl))

/-- Info-gauge `with_label_values(..).set(1)`: ensure the label tuple
is present. -/
def gaugeSet (fam : List (String × String)) (lbl : String × String) :
    List (String × String) :=
  if gaugeHas fam lbl then fam else lbl :: fam

/-- Info-gauge `remove_label_values`: drop the label tuple. -/
def gaugeRemove (fam : List (String × String)) (lbl : String × String) :
    List (String × String) :=
  fam.filter (fun x => !decide (x = lbl))

/-- `update_database_version_metric` from `src/pulse.rs` lines 157-174:
remove the previously observed version label (when it differs), set
the current one, remember it. -/
def update_database_version_metric (database version : String)
    (fam : List (String × String)) (last_version : Option String) :
    List (String × String) × Option String :=
  let fam1 :=
    match last_version with
    | some previous_version =>
        if previous_version ≠ version then
          gaugeRemove fam (database, previous_version)
        else fam
    | none => fam
  (gaugeSet fam1 (database, version), some version)

/-- `update_database_host_metric` from `src/pulse.rs` lines 176-192:
remove the previously observed host label (when it differs), then set
and remember the current host if one was observed, else forget it. -/
def update_database_host_metric (database : String) (host : Option String)
    (fam : List (String × String)) (last_host : Option String) :
    List (String × String) × Option String :=
  let fam1 :=
    match last_host with
    | some previous_host =>
        if some previous_host ≠ host then
          gaugeRemove fam (database, previous_host)
        else fam
    | none => fam
  match host with
  | some current_host => (gaugeSet fam1 (database, current_host), some current_host)
  | none => (fam1, none)

/-- `HealthCheckResult` as consumed by the supervision loop
(`src/queries/mod.rs` / the driver modules). -/
structure HealthCheckResult where
  version : String
  db_host : Option String
  uptime_seconds : Option Int
  tls_metadata : Option TlsMetadata

/-- The `Result` of one probe call as seen by `run_loop`. -/
inductive ProbeOutcome where
  | ok (r : HealthCheckResult)
  | err (msg : String)

/-- The metric registry state touched by one `run_loop` iteration
(`src/metrics.rs` families, labelled as in the source). -/
structure MetricsState where
  pulse : Int
  db_readonly : String → Int
  iterations_total : String × String → Nat
  db_errors : String × String → Nat
  last_success : String → Int
  database_uptime : String → Int
  tls_info : String × String × String → Int
  tls_cert_expiry : String → Int
  tls_connection_errors : String × String → Nat
  last_runtime_ms : String → Int
  runtime_observations : Nat
  panics_recovered : Nat
  versionFam : List (String × String)
  hostFam : List (String × String)

/-- The loop-local "last observed label" state of `run_loop`
(`src/pulse.rs` lines 211-212). -/
structure LoopState where
  last_version_label : Option String
  last_host_label : Option String

/-- `DATABASE_UPTIME_SECONDS` update of the success arm (`src/pulse.rs`
lines 245-249 / 357-361). -/
def uptimeUpdate (db : String) (uptime_seconds : Option Int)
    (m : MetricsState) : MetricsState :=
  match uptime_seconds with
  | some uptime => { m with database_uptime := setI m.database_uptime db uptime }
  | none => m

/-- `TLS_INFO` / `TLS_CERT_EXPIRY_DAYS` updates of the success arm
(`src/pulse.rs` lines 277-300 / 388-410). -/
def tlsMetricsUpdate (db : String) (tls_metadata : Option TlsMetadata)
    (m : MetricsState) : MetricsState :=
  match tls_metadata with
  | some metadata =>
      let m1 :=
        match metadata.version, metadata.cipher with
        | some v, some c => { m with tls_info := setI m.tls_info (db, v, c) 1 }
        | _, _ => m
      match metadata.cert_expiry_days with
      | some days => { m1 with tls_cert_expiry := setI m1.tls_cert_expiry db days }
      | none => m1
  | none => m

/-- The read-only decision block of the success arm (`src/pulse.rs`
lines 251-274 / 363-386). -/
def readOnlyDecision (db : String) (version : String) (now_ts : Int)
    (m : MetricsState) : MetricsState :=
  if is_database_read_only db version then
    { m with db_readonly := setI m.db_readonly db 1,
             pulse := 0,
             iterations_total := bumpN m.iterations_total (db, "error"),
             db_errors := bumpN m.db_errors (db, "query") }
  else
    { m with db_readonly := setI m.db_readonly db 0,
             pulse := 1,
             iterations_total := bumpN m.iterations_total (db, "success"),
             last_success := setI m.last_success db now_ts }

/-- The `Ok(result)` arm of `run_loop` (`src/pulse.rs` lines 230-301
and its mysql duplicate, lines 342-411; the source repeats the block
verbatim per driver with `db` fixed to "postgres" / "mysql"). -/
def okArm (db : String) (r : HealthCheckResult) (now_ts : Int)
    (m : MetricsState) (ls : LoopState) : MetricsState × LoopState :=
  let vres := update_database_version_metric db r.version m.versionFam ls.last_version_label
  let hres := update_database_host_metric db r.db_host m.hostFam ls.last_host_label
  let m1 := { m with versionFam := vres.1, hostFam := hres.1 }
  let m2 := uptimeUpdate db r.uptime_seconds m1
  let m3 := readOnlyDecision db r.version now_ts m2
  let m4 := tlsMetricsUpdate db r.tls_metadata m3
  (m4, { last_version_label := vres.2, last_host_label := hres.2 })

/-- The `TLS_CONNECTION_ERRORS` update of the error arm (`src/pulse.rs`
lines 332-337 / 442-447). -/
def errTlsUpdate (db : String) (tlsEnabled : Bool) (msg : String)
    (m : MetricsState) : MetricsState :=
  if tlsEnabled && is_tls_error msg then
    { m with tls_connection_errors := bumpN m.tls_connection_errors (db, "handshake") }
  else m

/-- The `Err(e)` arm of `run_loop` (`src/pulse.rs` lines 302-338 and
its mysql duplicate, lines 412-448); `classify` is the driver's error
classification block. -/
def errArm (db : String) (classify : String → String) (msg : String)
    (tlsEnabled : Bool) (m : MetricsState) (ls : LoopState) :
    MetricsState × LoopState :=
  let m1 := { m with pulse := 0 }
  let hres := update_database_host_metric db none m1.hostFam ls.last_host_label
  let m2 := { m1 with hostFam := hres.1 }
  let m3 := { m2 with iterations_total := bumpN m2.iterations_total (db, "error") }
  let m4 := { m3 with db_errors := bumpN m3.db_errors (db, classify msg) }
  let m5 := errTlsUpdate db tlsEnabled msg m4
  (m5, { ls with last_host_label := hres.2 })

/-- One completed `run_loop` iteration body (`src/pulse.rs` lines
216-481): dispatch on the DSN driver, run the matching arm on the
probe outcome, then observe the runtime histogram and set
`LAST_RUNTIME_MS`.  The returned `Bool` is `true` when the loop
continues; the unsupported-driver arm (lines 450-454) signals shutdown
and returns without touching any metric. -/
def runIteration (driver : String) (outcome : ProbeOutcome)
    (now_ts runtime_ms : Int) (tlsEnabled : Bool)
    (m : MetricsState) (ls : LoopState) : (MetricsState × LoopState) × Bool :=
  match driver with
  | "postgres" | "postgresql" =>
      let step :=
        match outcome with
        | ProbeOutcome.ok r => okArm "postgres" r now_ts m ls
        | ProbeOutcome.err msg =>
            errArm "postgres" classify_error_postgres msg tlsEnabled m ls
      let mEnd := { step.1 with
        runtime_observations := step.1.runtime_observations + 1,
        last_runtime_ms := setI step.1.last_runtime_ms "postgres" runtime_ms }
      ((mEnd, step.2), true)
  | "mysql" =>
      let step :=
        match outcome with
        | ProbeOutcome.ok r => okArm "mysql" r now_ts m ls
        | ProbeOutcome.err msg =>
            errArm "mysql" classify_error_mysql msg tlsEnabled m ls
      let mEnd := { step.1 with
        runtime_observations := step.1.runtime_observations + 1,
        last_runtime_ms := setI step.1.last_runtime_ms "mysql" runtime_ms }
      ((mEnd, step.2), true)
  | _ => ((m, ls), false)

/-- The panic-recovery handler of `run_loop` (`src/pulse.rs` lines
486-492): mark unhealthy and count the recovery; no iteration counter
is touched. -/
def panicRecovery (m : MetricsState) : MetricsState :=
  { m with pulse := 0, panics_recovered := m.panics_recovered + 1 }

/-- An all-zero metric registry (counters at 0, gauges at 0, no info
series), the state at process start. -/
def initialMetrics : MetricsState where
  pulse := 0
  db_readonly := fun _ => 0
  iterations_total := fun _ => 0
  db_errors := fun _ => 0
  last_success := fun _ => 0
  database_uptime := fun _ => 0
  tls_info := fun _ => 0
  tls_cert_expiry := fun _ => 0
  tls_connection_errors := fun _ => 0
  last_runtime_ms := fun _ => 0
  runtime_observations := 0
  panics_recovered := 0
  versionFam := []
  hostFam := []

/-- The loop-local label state at the start of `run_loop`
(`src/pulse.rs` lines 211-212). -/
def initialLoop : LoopState where
  last_version_label := none
  last_host_label := none

/-- One call to an info-gauge update function made by the supervision
loop: a version observation (success arm) or a host observation
(success arm with `some`, error arm with `none`). -/
inductive InfoEvent where
  | versionObs (v : String)
  | hostObs (h : Option String)

/-- The info-gauge portion of the loop state: the two families and the
two "last observed label" registers. -/
structure InfoGaugeState where
  versionFam : List (String × String)
  hostFam : List (String × String)
  last_version_label : Option String
  last_host_label : Option String

/-- Apply one info-gauge update call for the fixed database label
`db` (the label is a literal per driver branch in `run_loop`). -/
def applyInfoEvent (db : String) (s : InfoGaugeState) (e : InfoEvent) :
    InfoGaugeState :=
  match e with
  | InfoEvent.versionObs v =>
      let r := update_database_version_metric db v s.versionFam s.last_version_label
      { s with versionFam := r.1, last_version_label := r.2 }
  | InfoEvent.hostObs h =>
      let r := update_database_host_metric db h s.hostFam s.last_host_label
      { s with hostFam := r.1, last_host_label := r.2 }

/-- Run a sequence of info-gauge update calls from the process-start
state (empty families, no remembered labels). -/
def runInfoEvents (db : String) (es : List InfoEvent) : InfoGaugeState :=
  es.foldl (applyInfoEvent db)
    { versionFam := [], hostFam := [],
      last_version_label := none, last_host_label := none }

/-- Claim C5: for every interval `wait_time` and every nonnegative
iteration `runtime` (nanosecond counts, the interval within chrono's
representable range), the computed sleep before the next iteration is
exactly `wait_time - runtime` when `runtime < wait_time` (sub-second
precision preserved), and no sleep (`none`) results when
`runtime >= wait_time`. -/
theorem remaining_sleep_exact (wait_time runtime : Int)
    (hw : timeDeltaInRange wait_time) (hr : 0 ≤ runtime) :
    (runtime < wait_time →
      remaining_sleep_duration wait_time runtime = some (wait_time - runtime)) ∧
    (wait_time ≤ runtime → remaining_sleep_duration wait_time runtime = none) := by
  unfold timeDeltaInRange timeDeltaMaxNanos at hw
  constructor
  · intro h
    have hin : timeDeltaInRange (wait_time - runtime) := by
      unfold timeDeltaInRange timeDeltaMaxNanos
      omega
    unfold remaining_sleep_duration timeDeltaCheckedSub timeDeltaToStd
    rw [if_pos hin]
    have hpos : (0:Int) ≤ wait_time - runtime := by omega
    have hne : wait_time - runtime ≠ 0 := by omega
    simp [Option.filter, hpos, hne]
  · intro h
    unfold remaining_sleep_duration timeDeltaCheckedSub timeDeltaToStd
    by_cases hin : timeDeltaInRange (wait_time - runtime)
    · rw [if_pos hin]
      by_cases h0 : wait_time - runtime = 0
      · simp [Option.filter, h0]
      · have hneg : ¬ (0:Int) ≤ wait_time - runtime := by omega
        simp [Option.filter, hneg]
    · rw [if_neg hin]
      rfl

/-- Claim C5 witness: interval 1 s with runtime 999 ms yields exactly a
1 ms sleep. -/
theorem remaining_sleep_exact_w :
    timeDeltaInRange 1000000000 ∧ ((0:Int) ≤ 999000000) ∧ (999000000 : Int) < 1000000000 ∧
    remaining_sleep_duration 1000000000 999000000 = some 1000000 :=
  ⟨by decide, by decide, by decide,
    (remaining_sleep_exact 1000000000 999000000 (by decide) (by decide)).1 (by decide)⟩

/-- Claim C6: for every key, `CertCache.get` returns the stored
`TlsMetadata` iff the elapsed time since that key's insertion instant
is strictly below the configured TTL; with a TTL of zero every get is
a miss regardless of prior `set` calls, and a `set` followed by a
`get` of the same key returns the value exactly while the entry is
fresh. -/
theorem cert_cache_get_ttl (c : CertCache) (key : String) (now : Nat) :
    (∀ metadata timestamp, c.data key = some (metadata, timestamp) →
        (c.get key now = some metadata ↔ now - timestamp < c.ttl)) ∧
    (c.data key = none → c.get key now = none) ∧
    (c.ttl = 0 → c.get key now = none) ∧
    (∀ metadata t, (c.set key metadata t).get key now =
        if now - t < c.ttl then some metadata else none) := by
  refine ⟨?_, ?_, ?_, ?_⟩
  · intro metadata timestamp hdat
    simp only [CertCache.get, hdat]
    by_cases hlt : now - timestamp < c.ttl
    · simp [hlt]
    · simp [hlt]
  · intro hdat
    simp only [CertCache.get, hdat]
  · intro httl
    unfold CertCache.get
    cases hdat : c.data key with
    | none => rfl
    | some entry =>
        obtain ⟨md, ts⟩ := entry
        rw [httl]
        simp
  · intro metadata t
    simp only [CertCache.get, CertCache.set]
    simp

/-- Claim C6 witness: a concrete cache entry inserted at instant 5 is
returned at instant 8 under TTL 10, and the same lookup misses under
TTL 0. -/
theorem cert_cache_get_ttl_w :
    (CertCache.get ⟨fun k => if k = "db:5432" then some (⟨none, none, none, none, none⟩, 5) else none, 10⟩
        "db:5432" 8 = some ⟨none, none, none, none, none⟩) ∧
    (CertCache.get ⟨fun k => if k = "db:5432" then some (⟨none, none, none, none, none⟩, 5) else none, 0⟩
        "db:5432" 8 = none) := by
  constructor
  · exact ((cert_cache_get_ttl
      ⟨fun k => if k = "db:5432" then some (⟨none, none, none, none, none⟩, 5) else none, 10⟩
      "db:5432" 8).1 ⟨none, none, none, none, none⟩ 5 (by simp)).2 (by decide)
  · exact (cert_cache_get_ttl
      ⟨fun k => if k = "db:5432" then some (⟨none, none, none, none, none⟩, 5) else none, 0⟩
      "db:5432" 8).2.2.1 rfl

/-- Claim C8: parsing the canonical string rendering of every
`TlsMode` through `TlsMode.from_str` returns `ok` of the same mode,
and the parser is case-insensitive: any string whose (ASCII) lowercase
form equals the rendering parses to that mode. -/
theorem tls_mode_round_trip (mode : TlsMode) :
    TlsMode.from_str (TlsMode.render mode) = Except.ok mode ∧
    ∀ s : String, to_lowercase s = TlsMode.render mode →
      TlsMode.from_str s = Except.ok mode := by
  constructor
  · cases mode <;> rfl
  · intro s h
    unfold TlsMode.from_str
    rw [h]
    cases mode <;> rfl

/-- Claim C8 witness: the upper-case variant "VERIFY-CA" parses to
`VerifyCA`. -/
theorem tls_mode_round_trip_w :
    to_lowercase "VERIFY-CA" = TlsMode.render TlsMode.VerifyCA ∧
    TlsMode.from_str "VERIFY-CA" = Except.ok TlsMode.VerifyCA :=
  ⟨by decide, (tls_mode_round_trip TlsMode.VerifyCA).2 "VERIFY-CA" (by decide)⟩

/-- Rust `%` (truncating remainder) by `2_147_483_647` always lands in
the open interval of radius `2_147_483_647`. -/
theorem tmod_i32_bound (a : Int) :
    -2147483646 ≤ Int.tmod a 2147483647 ∧ Int.tmod a 2147483647 ≤ 2147483646 := by
  rcases a with m | m
  · have h : Int.tmod (Int.ofNat m) 2147483647 = ((m % 2147483647 : Nat) : Int) := rfl
    have hb : m % 2147483647 < 2147483647 := Nat.mod_lt _ (by decide)
    rw [h]
    omega
  · have h : Int.tmod (Int.negSucc m) 2147483647 = -(((m + 1) % 2147483647 : Nat) : Int) := rfl
    have hb : (m + 1) % 2147483647 < 2147483647 := Nat.mod_lt _ (by decide)
    rw [h]
    omega

/-- Claim C9: the postgres transaction-rollback seed
`timestamp_micros.rem_euclid(2_147_483_647)` always lies in
`[0, 2_147_483_646]`, so the `i32` conversion never fails; the mysql
variant `(timestamp_micros % 2_147_483_647) as i32` also always fits
in a signed 32-bit integer (the cast is the identity), is nonnegative
for nonnegative timestamps, and is negative for some pre-1970
timestamp. -/
theorem rollback_id_fits_i32 (micros : Int) :
    (0 ≤ postgres_rollback_seed micros ∧
     postgres_rollback_seed micros ≤ 2147483646 ∧
     postgres_rollback_test_id micros = some (postgres_rollback_seed micros)) ∧
    (mysql_rollback_test_id micros = Int.tmod micros 2147483647 ∧
     -2147483646 ≤ mysql_rollback_test_id micros ∧
     mysql_rollback_test_id micros ≤ 2147483646) ∧
    (0 ≤ micros → 0 ≤ mysql_rollback_test_id micros) ∧
    mysql_rollback_test_id (-1000000) < 0 := by
  have hseed1 : 0 ≤ postgres_rollback_seed micros :=
    Int.emod_nonneg micros (by decide)
  have hseed2 : postgres_rollback_seed micros ≤ 2147483646 := by
    have := Int.emod_lt_of_pos micros (show (0:Int) < 2147483647 by decide)
    unfold postgres_rollback_seed
    omega
  have htm := tmod_i32_bound micros
  have hwrap : mysql_rollback_test_id micros = Int.tmod micros 2147483647 := by
    unfold mysql_rollback_test_id wrap32
    omega
  refine ⟨⟨hseed1, hseed2, ?_⟩, ⟨hwrap, ?_, ?_⟩, ?_, ?_⟩
  · unfold postgres_rollback_test_id i32_try_from
    rw [if_pos]
    omega
  · omega
  · omega
  · intro hmic
    rw [hwrap]
    rcases micros with m | m
    · have h : Int.tmod (Int.ofNat m) 2147483647 = ((m % 2147483647 : Nat) : Int) := rfl
      rw [h]
      omega
    · exact absurd hmic (not_le.mpr (Int.negSucc_lt_zero m))
  · decide

/-- Claim C9 witness: at a realistic 2025 microsecond timestamp the
postgres id conversion succeeds and the mysql id is nonnegative. -/
theorem rollback_id_fits_i32_w :
    (0:Int) ≤ 1760000000000000 ∧
    postgres_rollback_test_id 1760000000000000 = some (postgres_rollback_seed 1760000000000000) ∧
    0 ≤ mysql_rollback_test_id 1760000000000000 :=
  ⟨by decide, ((rollback_id_fits_i32 1760000000000000).1).2.2,
    (rollback_id_fits_i32 1760000000000000).2.2.1 (by decide)⟩

/-- Claim C10: the read-only decision is the pure substring test
`is_database_read_only`: for driver "postgres"/"postgresql" it holds
iff the version contains "recovery mode" or "read-only", for every
other driver iff it contains "read-only"; a genuine version string
containing "read-only" without any probe annotation is classified
read-only, and a non-postgres version containing only
"recovery mode" is not. -/
theorem read_only_substring_decision (version : String) :
    (is_database_read_only "postgres" version =
      (strContains version "recovery mode" || strContains version "read-only")) ∧
    (is_database_read_only "postgresql" version =
      (strContains version "recovery mode" || strContains version "read-only")) ∧
    (∀ db : String, db ≠ "postgres" → db ≠ "postgresql" →
      is_database_read_only db version = strContains version "read-only") ∧
    is_database_read_only "postgres" "PostgreSQL 15.2 (read-only build)" = true ∧
    spec_contains_readonly_annot "PostgreSQL 15.2 (read-only build)" = false ∧
    is_database_read_only "mysql" "MariaDB in recovery mode" = false := by
  refine ⟨rfl, rfl, ?_, by decide, by decide, by decide⟩
  intro db h1 h2
  unfold is_database_read_only
  split
  · exact absurd rfl h1
  · exact absurd rfl h2
  · rfl

/-- Claim C10 witness: the generic-driver branch instantiated at
driver "mysql" on a concrete version string. -/
theorem read_only_substring_decision_w :
    ("mysql" : String) ≠ "postgres" ∧ ("mysql" : String) ≠ "postgresql" ∧
    is_database_read_only "mysql" "MariaDB 11.4 read-only" =
      strContains "MariaDB 11.4 read-only" "read-only" :=
  ⟨by decide, by decide,
    (read_only_substring_decision "MariaDB 11.4 read-only").2.2.1 "mysql" (by decide) (by decide)⟩

/-- Composing the two truncating divisions of `num_days` (nanoseconds
to seconds, then seconds to days) equals one truncating division by a
day of nanoseconds. -/
theorem tdiv_nano_day (n : Int) :
    Int.tdiv (Int.tdiv n 1000000000) 86400 = Int.tdiv n 86400000000000 := by
  rcases n with m | m
  · have h1 : Int.tdiv (Int.ofNat m) 1000000000 = Int.ofNat (m / 1000000000) := rfl
    have h2 : Int.tdiv (Int.ofNat (m / 1000000000)) 86400 =
        Int.ofNat (m / 1000000000 / 86400) := rfl
    have h3 : Int.tdiv (Int.ofNat m) 86400000000000 =
        Int.ofNat (m / 86400000000000) := rfl
    rw [h1, h2, h3, Nat.div_div_eq_div_mul]
  · have h1 : Int.tdiv (Int.negSucc m) 1000000000 =
        -Int.ofNat ((m + 1) / 1000000000) := rfl
    have h3 : Int.tdiv (Int.negSucc m) 86400000000000 =
        -Int.ofNat ((m + 1) / 86400000000000) := rfl
    rw [h1, h3]
    have hq : (m + 1) / 1000000000 / 86400 = (m + 1) / 86400000000000 :=
      Nat.div_div_eq_div_mul _ _ _
    cases hc : (m + 1) / 1000000000 with
    | zero =>
        have : (m + 1) / 86400000000000 = 0 := by
          rw [← hq, hc]
        rw [this]
        rfl
    | succ k =>
        have h4 : -Int.ofNat (k + 1) = Int.negSucc k := rfl
        have h5 : Int.tdiv (Int.negSucc k) 86400 = -Int.ofNat ((k + 1) / 86400) := rfl
        rw [h4, h5, ← hc, hq]

/-- Claim C7 counterexample: a certificate expired by 12 hours yields
`cert_expiry_days = 0` on both the TLS-probe path and the mysql
parsing path, while the specification's floor semantics demands -1. -/
theorem cert_expiry_floor_cex :
    calculate_expiry_days 0 43200000000000 = 0 ∧
    spec_cert_expiry_days 0 43200000000000 = -1 ∧
    parse_mysql_ssl_expiry_days 0 43200000000000 = 0 := by
  refine ⟨by decide, by decide, by decide⟩

/-- Claim C7 (amended): `cert_expiry_days` is `(notAfter - now) / 24h`
rounded toward zero (chrono `num_days` truncation), identically on the
TLS-probe path and the mysql `Ssl_server_not_after` path; for
certificates not yet expired this coincides with the floor, but an
expired certificate reads 0 until it is a full day past expiry. -/
theorem cert_expiry_truncates (notAfterNanos nowNanos : Int) :
    calculate_expiry_days notAfterNanos nowNanos =
      Int.tdiv (notAfterNanos - nowNanos) 86400000000000 ∧
    parse_mysql_ssl_expiry_days notAfterNanos nowNanos =
      calculate_expiry_days notAfterNanos nowNanos ∧
    (nowNanos ≤ notAfterNanos →
      calculate_expiry_days notAfterNanos nowNanos =
        spec_cert_expiry_days notAfterNanos nowNanos) := by
  refine ⟨tdiv_nano_day _, rfl, ?_⟩
  intro h
  have hd : (0:Int) ≤ notAfterNanos - nowNanos := by omega
  unfold calculate_expiry_days chronoNumDays chronoNumSeconds spec_cert_expiry_days
  rw [tdiv_nano_day]
  rw [Int.fdiv_eq_tdiv hd (by decide)]

/-- Claim C7 witness: one full day of remaining validity yields 1 on
both the truncating and the floor reading. -/
theorem cert_expiry_truncates_w :
    (0:Int) ≤ 86400000000000 ∧
    calculate_expiry_days 86400000000000 0 = 1 ∧
    spec_cert_expiry_days 86400000000000 0 = 1 := by
  refine ⟨by decide, by decide, ?_⟩
  rw [← (cert_expiry_truncates 86400000000000 0).2.2 (by decide)]
  decide

/-- One `update_database_version_metric` call takes a family holding at
most the remembered series to a family holding exactly the new one. -/
theorem version_update_keeps_single (db v : String)
    (fam : List (String × String)) (last : Option String)
    (h : (last = none ∧ fam = []) ∨ ∃ w, last = some w ∧ fam = [(db, w)]) :
    (update_database_version_metric db v fam last).2 = some v ∧
    (update_database_version_metric db v fam last).1 = [(db, v)] := by
  rcases h with ⟨h1, h2⟩ | ⟨w, h1, h2⟩
  · subst h1; subst h2
    simp [update_database_version_metric, gaugeSet, gaugeHas]
  · subst h1; subst h2
    by_cases hw : w = v
    · subst hw
      simp [update_database_version_metric, gaugeSet, gaugeHas]
    · simp [update_database_version_metric, hw, gaugeRemove, gaugeSet, gaugeHas]

/-- One `update_database_host_metric` call preserves the
at-most-the-remembered-series shape of the host family. -/
theorem host_update_keeps_single (db : String) (h : Option String)
    (fam : List (String × String)) (last : Option String)
    (inv : (last = none ∧ fam = []) ∨ ∃ w, last = some w ∧ fam = [(db, w)]) :
    ((update_database_host_metric db h fam last).2 = none ∧
      (update_database_host_metric db h fam last).1 = []) ∨
    ∃ w, (update_database_host_metric db h fam last).2 = some w ∧
      (update_database_host_metric db h fam last).1 = [(db, w)] := by
  rcases inv with ⟨h1, h2⟩ | ⟨w, h1, h2⟩
  · subst h1; subst h2
    cases h with
    | none => left; simp [update_database_host_metric]
    | some cur =>
        right
        exact ⟨cur, by simp [update_database_host_metric, gaugeSet, gaugeHas]⟩
  · subst h1; subst h2
    cases h with
    | none =>
        left
        simp [update_database_host_metric, gaugeRemove]
    | some cur =>
        right
        refine ⟨cur, ?_⟩
        by_cases hw : w = cur
        · subst hw
          simp [update_database_host_metric, gaugeSet, gaugeHas]
        · simp [update_database_host_metric, hw, gaugeRemove, gaugeSet, gaugeHas]

/-- One info-gauge update call preserves the single-series invariant of
both families. -/
theorem infoInv_step (db : String) (s : InfoGaugeState) (e : InfoEvent)
    (hv : (s.last_version_label = none ∧ s.versionFam = []) ∨
      ∃ w, s.last_version_label = some w ∧ s.versionFam = [(db, w)])
    (hh : (s.last_host_label = none ∧ s.hostFam = []) ∨
      ∃ w, s.last_host_label = some w ∧ s.hostFam = [(db, w)]) :
    (((applyInfoEvent db s e).last_version_label = none ∧
        (applyInfoEvent db s e).versionFam = []) ∨
      ∃ w, (applyInfoEvent db s e).last_version_label = some w ∧
        (applyInfoEvent db s e).versionFam = [(db, w)]) ∧
    (((applyInfoEvent db s e).last_host_label = none ∧
        (applyInfoEvent db s e).hostFam = []) ∨
      ∃ w, (applyInfoEvent db s e).last_host_label = some w ∧
        (applyInfoEvent db s e).hostFam = [(db, w)]) := by
  cases e with
  | versionObs v =>
      have hstep := version_update_keeps_single db v s.versionFam s.last_version_label hv
      constructor
      · right
        exact ⟨v, by simpa [applyInfoEvent] using hstep⟩
      · simpa [applyInfoEvent] using hh
  | hostObs h =>
      have hstep := host_update_keeps_single db h s.hostFam s.last_host_label hh
      constructor
      · simpa [applyInfoEvent] using hv
      · simpa [applyInfoEvent] using hstep

/-- Folding any sequence of info-gauge update calls preserves the
single-series invariant of both families. -/
theorem foldl_info_inv (db : String) (es : List InfoEvent) :
    ∀ s : InfoGaugeState,
      ((s.last_version_label = none ∧ s.versionFam = []) ∨
        ∃ w, s.last_version_label = some w ∧ s.versionFam = [(db, w)]) →
      ((s.last_host_label = none ∧ s.hostFam = []) ∨
        ∃ w, s.last_host_label = some w ∧ s.hostFam = [(db, w)]) →
      (((es.foldl (applyInfoEvent db) s).last_version_label = none ∧
          (es.foldl (applyInfoEvent db) s).versionFam = []) ∨
        ∃ w, (es.foldl (applyInfoEvent db) s).last_version_label = some w ∧
          (es.foldl (applyInfoEvent db) s).versionFam = [(db, w)]) ∧
      (((es.foldl (applyInfoEvent db) s).last_host_label = none ∧
          (es.foldl (applyInfoEvent db) s).hostFam = []) ∨
        ∃ w, (es.foldl (applyInfoEvent db) s).last_host_label = some w ∧
          (es.foldl (applyInfoEvent db) s).hostFam = [(db, w)]) := by
  induction es with
  | nil => intro s hv hh; exact ⟨hv, hh⟩
  | cons e rest ih =>
      intro s hv hh
      have hstep := infoInv_step db s e hv hh
      exact ih (applyInfoEvent db s e) hstep.1 hstep.2

/-- Claim C2: after any sequence of version/host info-gauge update
calls made by the single-writer supervision loop (fixed database
label, starting from the empty registry), at most one
`database_version_info` time-series and at most one
`database_host_info` time-series exist per `database` label value:
the update functions remove the previous label before setting the new
one. -/
theorem info_gauge_single_series (db : String) (es : List InfoEvent) :
    ((runInfoEvents db es).versionFam.filter (fun p => decide (p.1 = db))).length ≤ 1 ∧
    (runInfoEvents db es).versionFam.length ≤ 1 ∧
    ((runInfoEvents db es).hostFam.filter (fun p => decide (p.1 = db))).length ≤ 1 ∧
    (runInfoEvents db es).hostFam.length ≤ 1 := by
  have h := foldl_info_inv db es
    { versionFam := [], hostFam := [],
      last_version_label := none, last_host_label := none }
    (Or.inl ⟨rfl, rfl⟩) (Or.inl ⟨rfl, rfl⟩)
  unfold runInfoEvents
  rcases h with ⟨hv, hh⟩
  constructor
  · rcases hv with ⟨_, hfam⟩ | ⟨w, _, hfam⟩ <;> rw [hfam] <;> simp [List.filter]
  constructor
  · rcases hv with ⟨_, hfam⟩ | ⟨w, _, hfam⟩ <;> rw [hfam] <;> simp
  constructor
  · rcases hh with ⟨_, hfam⟩ | ⟨w, _, hfam⟩ <;> rw [hfam] <;> simp [List.filter]
  · rcases hh with ⟨_, hfam⟩ | ⟨w, _, hfam⟩ <;> rw [hfam] <;> simp

/-- The uptime-gauge update leaves `pulse` unchanged. -/
theorem uptimeUpdate_pulse (db : String) (u : Option Int) (m : MetricsState) :
    (uptimeUpdate db u m).pulse = m.pulse := by cases u <;> rfl

/-- The uptime-gauge update leaves `db_readonly` unchanged. -/
theorem uptimeUpdate_db_readonly (db : String) (u : Option Int) (m : MetricsState) :
    (uptimeUpdate db u m).db_readonly = m.db_readonly := by cases u <;> rfl

/-- The uptime-gauge update leaves `iterations_total` unchanged. -/
theorem uptimeUpdate_iterations (db : String) (u : Option Int) (m : MetricsState) :
    (uptimeUpdate db u m).iterations_total = m.iterations_total := by cases u <;> rfl

/-- The uptime-gauge update leaves `db_errors` unchanged. -/
theorem uptimeUpdate_db_errors (db : String) (u : Option Int) (m : MetricsState) :
    (uptimeUpdate db u m).db_errors = m.db_errors := by cases u <;> rfl

/-- The uptime-gauge update leaves `last_success` unchanged. -/
theorem uptimeUpdate_last_success (db : String) (u : Option Int) (m : MetricsState) :
    (uptimeUpdate db u m).last_success = m.last_success := by cases u <;> rfl

/-- The TLS-gauge updates leave `pulse` unchanged. -/
theorem tlsMetricsUpdate_pulse (db : String) (md : Option TlsMetadata) (m : MetricsState) :
    (tlsMetricsUpdate db md m).pulse = m.pulse := by
  rcases md with _ | ⟨v, c, cs, ci, ce⟩
  · rfl
  · cases v <;> cases c <;> cases ce <;> rfl

/-- The TLS-gauge updates leave `db_readonly` unchanged. -/
theorem tlsMetricsUpdate_db_readonly (db : String) (md : Option TlsMetadata) (m : MetricsState) :
    (tlsMetricsUpdate db md m).db_readonly = m.db_readonly := by
  rcases md with _ | ⟨v, c, cs, ci, ce⟩
  · rfl
  · cases v <;> cases c <;> cases ce <;> rfl

/-- The TLS-gauge updates leave `iterations_total` unchanged. -/
theorem tlsMetricsUpdate_iterations (db : String) (md : Option TlsMetadata) (m : MetricsState) :
    (tlsMetricsUpdate db md m).iterations_total = m.iterations_total := by
  rcases md with _ | ⟨v, c, cs, ci, ce⟩
  · rfl
  · cases v <;> cases c <;> cases ce <;> rfl

/-- The TLS-gauge updates leave `db_errors` unchanged. -/
theorem tlsMetricsUpdate_db_errors (db : String) (md : Option TlsMetadata) (m : MetricsState) :
    (tlsMetricsUpdate db md m).db_errors = m.db_errors := by
  rcases md with _ | ⟨v, c, cs, ci, ce⟩
  · rfl
  · cases v <;> cases c <;> cases ce <;> rfl

/-- The TLS-gauge updates leave `last_success` unchanged. -/
theorem tlsMetricsUpdate_last_success (db : String) (md : Option TlsMetadata) (m : MetricsState) :
    (tlsMetricsUpdate db md m).last_success = m.last_success := by
  rcases md with _ | ⟨v, c, cs, ci, ce⟩
  · rfl
  · cases v <;> cases c <;> cases ce <;> rfl

/-- The success arm's effect on the five read-only-decision metric
fields, as a function of `is_database_read_only`. -/
theorem okArm_core_fields (db : String) (r : HealthCheckResult) (now_ts : Int)
    (m : MetricsState) (ls : LoopState) :
    (okArm db r now_ts m ls).1.pulse =
      (if is_database_read_only db r.version then 0 else 1) ∧
    (okArm db r now_ts m ls).1.db_readonly =
      setI m.db_readonly db (if is_database_read_only db r.version then 1 else 0) ∧
    (okArm db r now_ts m ls).1.iterations_total =
      (if is_database_read_only db r.version then
        bumpN m.iterations_total (db, "error")
      else bumpN m.iterations_total (db, "success")) ∧
    (okArm db r now_ts m ls).1.db_errors =
      (if is_database_read_only db r.version then
        bumpN m.db_errors (db, "query")
      else m.db_errors) ∧
    (okArm db r now_ts m ls).1.last_success =
      (if is_database_read_only db r.version then
        m.last_success
      else setI m.last_success db now_ts) := by
  by_cases hrd : is_database_read_only db r.version <;>
    refine ⟨?_, ?_, ?_, ?_, ?_⟩ <;>
    simp [okArm, readOnlyDecision, hrd,
      tlsMetricsUpdate_pulse, tlsMetricsUpdate_db_readonly, tlsMetricsUpdate_iterations,
      tlsMetricsUpdate_db_errors, tlsMetricsUpdate_last_success,
      uptimeUpdate_pulse, uptimeUpdate_db_readonly, uptimeUpdate_iterations,
      uptimeUpdate_db_errors, uptimeUpdate_last_success]

/-- The TLS-error-counter update leaves `pulse` unchanged. -/
theorem errTlsUpdate_pulse (db : String) (tl : Bool) (msg : String) (m : MetricsState) :
    (errTlsUpdate db tl msg m).pulse = m.pulse := by
  unfold errTlsUpdate; split <;> rfl

/-- The TLS-error-counter update leaves `db_readonly` unchanged. -/
theorem errTlsUpdate_db_readonly (db : String) (tl : Bool) (msg : String) (m : MetricsState) :
    (errTlsUpdate db tl msg m).db_readonly = m.db_readonly := by
  unfold errTlsUpdate; split <;> rfl

/-- The TLS-error-counter update leaves `iterations_total` unchanged. -/
theorem errTlsUpdate_iterations (db : String) (tl : Bool) (msg : String) (m : MetricsState) :
    (errTlsUpdate db tl msg m).iterations_total = m.iterations_total := by
  unfold errTlsUpdate; split <;> rfl

/-- The TLS-error-counter update leaves `db_errors` unchanged. -/
theorem errTlsUpdate_db_errors (db : String) (tl : Bool) (msg : String) (m : MetricsState) :
    (errTlsUpdate db tl msg m).db_errors = m.db_errors := by
  unfold errTlsUpdate; split <;> rfl

/-- The TLS-error-counter update leaves `last_success` unchanged. -/
theorem errTlsUpdate_last_success (db : String) (tl : Bool) (msg : String) (m : MetricsState) :
    (errTlsUpdate db tl msg m).last_success = m.last_success := by
  unfold errTlsUpdate; split <;> rfl

/-- The error arm's effect on the core metric fields: pulse cleared,
one error iteration counted, exactly the classified error counter
bumped. -/
theorem errArm_core_fields (db : String) (classify : String → String) (msg : String)
    (tl : Bool) (m : MetricsState) (ls : LoopState) :
    (errArm db classify msg tl m ls).1.pulse = 0 ∧
    (errArm db classify msg tl m ls).1.iterations_total =
      bumpN m.iterations_total (db, "error") ∧
    (errArm db classify msg tl m ls).1.db_errors =
      bumpN m.db_errors (db, classify msg) ∧
    (errArm db classify msg tl m ls).1.db_readonly = m.db_readonly ∧
    (errArm db classify msg tl m ls).1.last_success = m.last_success := by
  refine ⟨?_, ?_, ?_, ?_, ?_⟩ <;>
    simp [errArm, errTlsUpdate_pulse, errTlsUpdate_db_readonly, errTlsUpdate_iterations,
      errTlsUpdate_db_errors, errTlsUpdate_last_success]

/-- Dispatch: a completed successful probe under driver "postgres". -/
theorem runIteration_postgres_ok (r : HealthCheckResult) (now_ts runtime_ms : Int)
    (tl : Bool) (m : MetricsState) (ls : LoopState) :
    runIteration "postgres" (ProbeOutcome.ok r) now_ts runtime_ms tl m ls =
      (({ (okArm "postgres" r now_ts m ls).1 with
          runtime_observations := (okArm "postgres" r now_ts m ls).1.runtime_observations + 1,
          last_runtime_ms :=
            setI (okArm "postgres" r now_ts m ls).1.last_runtime_ms "postgres" runtime_ms },
        (okArm "postgres" r now_ts m ls).2), true) := rfl

/-- Dispatch: a completed successful probe under driver "postgresql"
(labels still "postgres"). -/
theorem runIteration_postgresql_ok (r : HealthCheckResult) (now_ts runtime_ms : Int)
    (tl : Bool) (m : MetricsState) (ls : LoopState) :
    runIteration "postgresql" (ProbeOutcome.ok r) now_ts runtime_ms tl m ls =
      (({ (okArm "postgres" r now_ts m ls).1 with
          runtime_observations := (okArm "postgres" r now_ts m ls).1.runtime_observations + 1,
          last_runtime_ms :=
            setI (okArm "postgres" r now_ts m ls).1.last_runtime_ms "postgres" runtime_ms },
        (okArm "postgres" r now_ts m ls).2), true) := rfl

/-- Dispatch: a completed successful probe under driver "mysql". -/
theorem runIteration_mysql_ok (r : HealthCheckResult) (now_ts runtime_ms : Int)
    (tl : Bool) (m : MetricsState) (ls : LoopState) :
    runIteration "mysql" (ProbeOutcome.ok r) now_ts runtime_ms tl m ls =
      (({ (okArm "mysql" r now_ts m ls).1 with
          runtime_observations := (okArm "mysql" r now_ts m ls).1.runtime_observations + 1,
          last_runtime_ms :=
            setI (okArm "mysql" r now_ts m ls).1.last_runtime_ms "mysql" runtime_ms },
        (okArm "mysql" r now_ts m ls).2), true) := rfl

/-- Dispatch: a completed failed probe under driver "postgres". -/
theorem runIteration_postgres_err (msg : String) (now_ts runtime_ms : Int)
    (tl : Bool) (m : MetricsState) (ls : LoopState) :
    runIteration "postgres" (ProbeOutcome.err msg) now_ts runtime_ms tl m ls =
      (({ (errArm "postgres" classify_error_postgres msg tl m ls).1 with
          runtime_observations :=
            (errArm "postgres" classify_error_postgres msg tl m ls).1.runtime_observations + 1,
          last_runtime_ms :=
            setI (errArm "postgres" classify_error_postgres msg tl m ls).1.last_runtime_ms
              "postgres" runtime_ms },
        (errArm "postgres" classify_error_postgres msg tl m ls).2), true) := rfl

/-- Dispatch: a completed failed probe under driver "postgresql"
(labels still "postgres"). -/
theorem runIteration_postgresql_err (msg : String) (now_ts runtime_ms : Int)
    (tl : Bool) (m : MetricsState) (ls : LoopState) :
    runIteration "postgresql" (ProbeOutcome.err msg) now_ts runtime_ms tl m ls =
      (({ (errArm "postgres" classify_error_postgres msg tl m ls).1 with
          runtime_observations :=
            (errArm "postgres" classify_error_postgres msg tl m ls).1.runtime_observations + 1,
          last_runtime_ms :=
            setI (errArm "postgres" classify_error_postgres msg tl m ls).1.last_runtime_ms
              "postgres" runtime_ms },
        (errArm "postgres" classify_error_postgres msg tl m ls).2), true) := rfl

/-- Dispatch: a completed failed probe under driver "mysql". -/
theorem runIteration_mysql_err (msg : String) (now_ts runtime_ms : Int)
    (tl : Bool) (m : MetricsState) (ls : LoopState) :
    runIteration "mysql" (ProbeOutcome.err msg) now_ts runtime_ms tl m ls =
      (({ (errArm "mysql" classify_error_mysql msg tl m ls).1 with
          runtime_observations :=
            (errArm "mysql" classify_error_mysql msg tl m ls).1.runtime_observations + 1,
          last_runtime_ms :=
            setI (errArm "mysql" classify_error_mysql msg tl m ls).1.last_runtime_ms
              "mysql" runtime_ms },
        (errArm "mysql" classify_error_mysql msg tl m ls).2), true) := rfl

/-- Claim C1 (amended): for every supervision-loop iteration whose
probe returns a successful `HealthCheckResult`, if
`is_database_read_only` classifies the returned version string as
read-only (for postgres: it contains "recovery mode" or "read-only";
containing a step-8 annotation is a particular case) then
`database_readonly := 1`, `pulse := 0`, `iterations_total{status=error}`
and `db_errors{error_type=query}` are incremented and the success
counter is untouched; otherwise `database_readonly := 0`,
`pulse := 1`, `iterations_total{status=success}` is incremented and
`last_success_timestamp_seconds` is set to the iteration's start time.
In particular `pulse` is 1 exactly when the iteration was not
classified read-only. -/
theorem success_metrics_by_readonly (driver db : String) (r : HealthCheckResult)
    (now_ts runtime_ms : Int) (tl : Bool) (m : MetricsState) (ls : LoopState)
    (hdb : ((driver = "postgres" ∨ driver = "postgresql") ∧ db = "postgres") ∨
           (driver = "mysql" ∧ db = "mysql")) :
    ((runIteration driver (ProbeOutcome.ok r) now_ts runtime_ms tl m ls).1.1.pulse = 1 ↔
      is_database_read_only db r.version = false) ∧
    (is_database_read_only db r.version = true →
      (runIteration driver (ProbeOutcome.ok r) now_ts runtime_ms tl m ls).1.1.db_readonly db = 1 ∧
      (runIteration driver (ProbeOutcome.ok r) now_ts runtime_ms tl m ls).1.1.pulse = 0 ∧
      (runIteration driver (ProbeOutcome.ok r) now_ts runtime_ms tl m ls).1.1.iterations_total
          (db, "error") = m.iterations_total (db, "error") + 1 ∧
      (runIteration driver (ProbeOutcome.ok r) now_ts runtime_ms tl m ls).1.1.iterations_total
          (db, "success") = m.iterations_total (db, "success") ∧
      (runIteration driver (ProbeOutcome.ok r) now_ts runtime_ms tl m ls).1.1.db_errors
          (db, "query") = m.db_errors (db, "query") + 1) ∧
    (is_database_read_only db r.version = false →
      (runIteration driver (ProbeOutcome.ok r) now_ts runtime_ms tl m ls).1.1.db_readonly db = 0 ∧
      (runIteration driver (ProbeOutcome.ok r) now_ts runtime_ms tl m ls).1.1.pulse = 1 ∧
      (runIteration driver (ProbeOutcome.ok r) now_ts runtime_ms tl m ls).1.1.iterations_total
          (db, "success") = m.iterations_total (db, "success") + 1 ∧
      (runIteration driver (ProbeOutcome.ok r) now_ts runtime_ms tl m ls).1.1.iterations_total
          (db, "error") = m.iterations_total (db, "error") ∧
      (runIteration driver (ProbeOutcome.ok r) now_ts runtime_ms tl m ls).1.1.last_success db =
        now_ts) := by
  rcases hdb with ⟨hdrv | hdrv, hdbe⟩ | ⟨hdrv, hdbe⟩ <;> subst hdrv <;> subst hdbe <;>
    [rw [runIteration_postgres_ok]; rw [runIteration_postgresql_ok]; rw [runIteration_mysql_ok]]
  case _ =>
    obtain ⟨hp, hro, hit, hde, hls⟩ := okArm_core_fields "postgres" r now_ts m ls
    by_cases hrd : is_database_read_only "postgres" r.version <;>
      simp [hp, hro, hit, hde, hls, hrd, bumpN, setI]
  case _ =>
    obtain ⟨hp, hro, hit, hde, hls⟩ := okArm_core_fields "postgres" r now_ts m ls
    by_cases hrd : is_database_read_only "postgres" r.version <;>
      simp [hp, hro, hit, hde, hls, hrd, bumpN, setI]
  case _ =>
    obtain ⟨hp, hro, hit, hde, hls⟩ := okArm_core_fields "mysql" r now_ts m ls
    by_cases hrd : is_database_read_only "mysql" r.version <;>
      simp [hp, hro, hit, hde, hls, hrd, bumpN, setI]

/-- Claim C1 counterexample: a successful probe whose version string
contains none of the section 4.4 step-8 annotations but contains the
bare substring "read-only" takes the error branch: pulse is 0 and the
success counter is not incremented, refuting the claim's "otherwise"
case as stated. -/
theorem success_metrics_annot_cex :
    spec_contains_readonly_annot "PostgreSQL 16.0 read-only" = false ∧
    (runIteration "postgres"
        (ProbeOutcome.ok ⟨"PostgreSQL 16.0 read-only", none, none, none⟩)
        100 5 false initialMetrics initialLoop).1.1.pulse = 0 ∧
    (runIteration "postgres"
        (ProbeOutcome.ok ⟨"PostgreSQL 16.0 read-only", none, none, none⟩)
        100 5 false initialMetrics initialLoop).1.1.iterations_total
      ("postgres", "success") = 0 ∧
    (runIteration "postgres"
        (ProbeOutcome.ok ⟨"PostgreSQL 16.0 read-only", none, none, none⟩)
        100 5 false initialMetrics initialLoop).1.1.iterations_total
      ("postgres", "error") = 1 ∧
    (runIteration "postgres"
        (ProbeOutcome.ok ⟨"PostgreSQL 16.0 read-only", none, none, none⟩)
        100 5 false initialMetrics initialLoop).1.1.db_readonly "postgres" = 1 :=
  ⟨rfl, rfl, rfl, rfl, rfl⟩

/-- Claim C1 witness: a mysql probe result carrying the read-only
annotation takes the error branch with all four claimed metric
updates. -/
theorem success_metrics_by_readonly_w :
    is_database_read_only "mysql" "MariaDB 11.4.5 - Database is in read-only mode" = true ∧
    (runIteration "mysql"
        (ProbeOutcome.ok ⟨"MariaDB 11.4.5 - Database is in read-only mode",
          some "db-a", some 42, none⟩)
        1700000000 5 false initialMetrics initialLoop).1.1.pulse = 0 ∧
    (runIteration "mysql"
        (ProbeOutcome.ok ⟨"MariaDB 11.4.5 - Database is in read-only mode",
          some "db-a", some 42, none⟩)
        1700000000 5 false initialMetrics initialLoop).1.1.db_readonly "mysql" = 1 ∧
    (runIteration "mysql"
        (ProbeOutcome.ok ⟨"MariaDB 11.4.5 - Database is in read-only mode",
          some "db-a", some 42, none⟩)
        1700000000 5 false initialMetrics initialLoop).1.1.iterations_total
      ("mysql", "error") = 1 ∧
    (runIteration "mysql"
        (ProbeOutcome.ok ⟨"MariaDB 11.4.5 - Database is in read-only mode",
          some "db-a", some 42, none⟩)
        1700000000 5 false initialMetrics initialLoop).1.1.db_errors ("mysql", "query") = 1 := by
  have h := success_metrics_by_readonly "mysql" "mysql"
    ⟨"MariaDB 11.4.5 - Database is in read-only mode", some "db-a", some 42, none⟩
    1700000000 5 false initialMetrics initialLoop (Or.inr ⟨rfl, rfl⟩)
  have hro := h.2.1 rfl
  exact ⟨rfl, hro.2.1, hro.1, hro.2.2.1, hro.2.2.2.2⟩

/-- Claim C3 (amended): every iteration that completes the probe match
(`Ok` or `Err`) under a supported driver increments exactly one of
`iterations_total{status=success}` / `iterations_total{status=error}`;
the panic-recovery handler and the unsupported-driver branch increment
neither counter. -/
theorem iteration_counts_exactly_one (driver db : String) (outcome : ProbeOutcome)
    (now_ts runtime_ms : Int) (tl : Bool) (m : MetricsState) (ls : LoopState)
    (hdb : ((driver = "postgres" ∨ driver = "postgresql") ∧ db = "postgres") ∨
           (driver = "mysql" ∧ db = "mysql")) :
    (((runIteration driver outcome now_ts runtime_ms tl m ls).1.1.iterations_total
          (db, "success") = m.iterations_total (db, "success") + 1 ∧
      (runIteration driver outcome now_ts runtime_ms tl m ls).1.1.iterations_total
          (db, "error") = m.iterations_total (db, "error")) ∨
     ((runIteration driver outcome now_ts runtime_ms tl m ls).1.1.iterations_total
          (db, "error") = m.iterations_total (db, "error") + 1 ∧
      (runIteration driver outcome now_ts runtime_ms tl m ls).1.1.iterations_total
          (db, "success") = m.iterations_total (db, "success"))) ∧
    (∀ mm : MetricsState, (panicRecovery mm).iterations_total = mm.iterations_total) ∧
    (∀ d : String, d ≠ "postgres" → d ≠ "postgresql" → d ≠ "mysql" →
      runIteration d outcome now_ts runtime_ms tl m ls = ((m, ls), false)) := by
  refine ⟨?_, fun mm => rfl, ?_⟩
  · rcases hdb with ⟨hdrv | hdrv, hdbe⟩ | ⟨hdrv, hdbe⟩ <;> subst hdrv <;> subst hdbe
    · cases outcome with
      | ok r =>
          rw [runIteration_postgres_ok]
          obtain ⟨hp, hro, hit, hde, hls⟩ := okArm_core_fields "postgres" r now_ts m ls
          by_cases hrd : is_database_read_only "postgres" r.version
          · right; simp [hit, hrd, bumpN]
          · left; simp [hit, hrd, bumpN]
      | err msg =>
          rw [runIteration_postgres_err]
          obtain ⟨hp, hit, hde, hro, hls⟩ :=
            errArm_core_fields "postgres" classify_error_postgres msg tl m ls
          right; simp [hit, bumpN]
    · cases outcome with
      | ok r =>
          rw [runIteration_postgresql_ok]
          obtain ⟨hp, hro, hit, hde, hls⟩ := okArm_core_fields "postgres" r now_ts m ls
          by_cases hrd : is_database_read_only "postgres" r.version
          · right; simp [hit, hrd, bumpN]
          · left; simp [hit, hrd, bumpN]
      | err msg =>
          rw [runIteration_postgresql_err]
          obtain ⟨hp, hit, hde, hro, hls⟩ :=
            errArm_core_fields "postgres" classify_error_postgres msg tl m ls
          right; simp [hit, bumpN]
    · cases outcome with
      | ok r =>
          rw [runIteration_mysql_ok]
          obtain ⟨hp, hro, hit, hde, hls⟩ := okArm_core_fields "mysql" r now_ts m ls
          by_cases hrd : is_database_read_only "mysql" r.version
          · right; simp [hit, hrd, bumpN]
          · left; simp [hit, hrd, bumpN]
      | err msg =>
          rw [runIteration_mysql_err]
          obtain ⟨hp, hit, hde, hro, hls⟩ :=
            errArm_core_fields "mysql" classify_error_mysql msg tl m ls
          right; simp [hit, bumpN]
  · intro d h1 h2 h3
    unfold runIteration
    split
    · exact absurd rfl h1
    · exact absurd rfl h2
    · exact absurd rfl h3
    · rfl

/-- Claim C3 counterexample: the unsupported-driver branch returns with
the metric state untouched, and the panic-recovery handler bumps only
`panics_recovered`: neither increments an iteration counter, refuting
the claim's parenthetical. -/
theorem iteration_counts_cex :
    runIteration "sqlite" (ProbeOutcome.err "boom") 0 0 false initialMetrics initialLoop =
      ((initialMetrics, initialLoop), false) ∧
    (panicRecovery initialMetrics).iterations_total ("postgres", "success") = 0 ∧
    (panicRecovery initialMetrics).iterations_total ("postgres", "error") = 0 ∧
    (panicRecovery initialMetrics).panics_recovered = 1 ∧
    (panicRecovery initialMetrics).pulse = 0 :=
  ⟨rfl, rfl, rfl, rfl, rfl⟩

/-- Claim C3 witness: a concrete failed mysql iteration increments
exactly the error counter, and a concrete unsupported driver leaves
the state unchanged. -/
theorem iteration_counts_exactly_one_w :
    (runIteration "mysql" (ProbeOutcome.err "boom") 0 0 false initialMetrics
        initialLoop).1.1.iterations_total ("mysql", "error") = 1 ∧
    (runIteration "mysql" (ProbeOutcome.err "boom") 0 0 false initialMetrics
        initialLoop).1.1.iterations_total ("mysql", "success") = 0 ∧
    runIteration "sqlite3" (ProbeOutcome.err "boom") 0 0 false initialMetrics initialLoop =
      ((initialMetrics, initialLoop), false) := by
  have h := iteration_counts_exactly_one "mysql" "mysql" (ProbeOutcome.err "boom")
    0 0 false initialMetrics initialLoop (Or.inr ⟨rfl, rfl⟩)
  rcases h.1 with ⟨hs, _⟩ | ⟨he, hs⟩
  · exact absurd hs (by decide)
  · exact ⟨he, hs, h.2.2 "sqlite3" (by decide) (by decide) (by decide)⟩

/-- Claim C4 (amended): each failed probe classifies the error string
by a case-sensitive substring scan in priority order
(authentication, timeout, connection, transaction, query) and
increments `db_errors{error_type}` for exactly that class - but the
"Access denied" substring belongs to the authentication class only in
the mysql arm; the postgres arm checks only "authentication" and
"password", so an error containing only "Access denied" is classified
"query" there and "authentication" under mysql. -/
theorem error_classification (s : String) (tl : Bool) (m : MetricsState) (ls : LoopState) :
    ((errArm "postgres" classify_error_postgres s tl m ls).1.db_errors
        ("postgres", classify_error_postgres s) =
      m.db_errors ("postgres", classify_error_postgres s) + 1) ∧
    (∀ t : String, t ≠ classify_error_postgres s →
      (errArm "postgres" classify_error_postgres s tl m ls).1.db_errors ("postgres", t) =
        m.db_errors ("postgres", t)) ∧
    ((errArm "mysql" classify_error_mysql s tl m ls).1.db_errors
        ("mysql", classify_error_mysql s) =
      m.db_errors ("mysql", classify_error_mysql s) + 1) ∧
    (∀ t : String, t ≠ classify_error_mysql s →
      (errArm "mysql" classify_error_mysql s tl m ls).1.db_errors ("mysql", t) =
        m.db_errors ("mysql", t)) ∧
    (strContains s "authentication" = true ∨ strContains s "password" = true →
      classify_error_postgres s = "authentication") ∧
    (strContains s "authentication" = true ∨ strContains s "password" = true ∨
        strContains s "Access denied" = true →
      classify_error_mysql s = "authentication") ∧
    (strContains s "authentication" = false → strContains s "password" = false →
      strContains s "timeout" = true →
      classify_error_postgres s = "timeout" ∧
        (strContains s "Access denied" = false → classify_error_mysql s = "timeout")) ∧
    (strContains s "authentication" = false → strContains s "password" = false →
      strContains s "timeout" = false →
      (strContains s "connection" = true ∨ strContains s "refused" = true) →
      classify_error_postgres s = "connection" ∧
        (strContains s "Access denied" = false → classify_error_mysql s = "connection")) ∧
    (strContains s "authentication" = false → strContains s "password" = false →
      strContains s "timeout" = false → strContains s "connection" = false →
      strContains s "refused" = false → strContains s "transaction" = true →
      classify_error_postgres s = "transaction" ∧
        (strContains s "Access denied" = false → classify_error_mysql s = "transaction")) ∧
    (strContains s "authentication" = false → strContains s "password" = false →
      strContains s "timeout" = false → strContains s "connection" = false →
      strContains s "refused" = false → strContains s "transaction" = false →
      classify_error_postgres s = "query" ∧
        (strContains s "Access denied" = false → classify_error_mysql s = "query") ∧
        (strContains s "Access denied" = true →
          classify_error_postgres s = "query" ∧
          classify_error_mysql s = "authentication")) := by
  obtain ⟨hpp, hpi, hpd, hpr, hpl⟩ :=
    errArm_core_fields "postgres" classify_error_postgres s tl m ls
  obtain ⟨hmp, hmi, hmd, hmr, hml⟩ :=
    errArm_core_fields "mysql" classify_error_mysql s tl m ls
  refine ⟨?_, ?_, ?_, ?_, ?_, ?_, ?_, ?_, ?_, ?_⟩
  · rw [hpd]; simp [bumpN]
  · intro t ht
    rw [hpd]
    simp [bumpN, ht]
  · rw [hmd]; simp [bumpN]
  · intro t ht
    rw [hmd]
    simp [bumpN, ht]
  · rintro (h | h) <;> simp [classify_error_postgres, h]
  · rintro (h | h | h) <;> simp [classify_error_mysql, h]
  · intro h1 h2 h3
    refine ⟨by simp [classify_error_postgres, h1, h2, h3], fun h4 => ?_⟩
    simp [classify_error_mysql, h1, h2, h3, h4]
  · intro h1 h2 h3 h4
    constructor
    · rcases h4 with h4 | h4 <;> simp [classify_error_postgres, h1, h2, h3, h4]
    · intro h5
      rcases h4 with h4 | h4 <;> simp [classify_error_mysql, h1, h2, h3, h4, h5]
  · intro h1 h2 h3 h4 h5 h6
    refine ⟨by simp [classify_error_postgres, h1, h2, h3, h4, h5, h6], fun h7 => ?_⟩
    simp [classify_error_mysql, h1, h2, h3, h4, h5, h6, h7]
  · intro h1 h2 h3 h4 h5 h6
    refine ⟨by simp [classify_error_postgres, h1, h2, h3, h4, h5, h6], fun h7 => ?_, fun h7 => ?_⟩
    · simp [classify_error_mysql, h1, h2, h3, h4, h5, h6, h7]
    · exact ⟨by simp [classify_error_postgres, h1, h2, h3, h4, h5, h6],
        by simp [classify_error_mysql, h7]⟩

/-- Claim C4 counterexample: an error string containing only
"Access denied" is classified "query" by the postgres arm (the
specification's driver-independent scan says "authentication"), and
the postgres error arm increments the query counter, not the
authentication counter. -/
theorem error_classification_cex :
    classify_error_postgres "Access denied for user" = "query" ∧
    spec_classify_error "Access denied for user" = "authentication" ∧
    (errArm "postgres" classify_error_postgres "Access denied for user" false
        initialMetrics initialLoop).1.db_errors ("postgres", "authentication") = 0 ∧
    (errArm "postgres" classify_error_postgres "Access denied for user" false
        initialMetrics initialLoop).1.db_errors ("postgres", "query") = 1 :=
  ⟨rfl, rfl, rfl, rfl⟩

/-- Claim C4 witness: a concrete timeout error increments exactly the
timeout counter in the postgres arm, and the mysql arm classifies
"Access denied" as authentication. -/
theorem error_classification_w :
    classify_error_postgres "connect timeout" = "timeout" ∧
    (errArm "postgres" classify_error_postgres "connect timeout" false initialMetrics
        initialLoop).1.db_errors ("postgres", "timeout") = 1 ∧
    (errArm "postgres" classify_error_postgres "connect timeout" false initialMetrics
        initialLoop).1.db_errors ("postgres", "query") = 0 ∧
    classify_error_mysql "Access denied for user" = "authentication" := by
  have h := error_classification "connect timeout" false initialMetrics initialLoop
  have h2 := error_classification "Access denied for user" false initialMetrics initialLoop
  exact ⟨rfl, h.1, h.2.1 "query" (by decide), h2.2.2.2.2.2.1 (Or.inr (Or.inr rfl))⟩
